import Mathlib

/-
Verification of the polymap relationship-graph component
(src/src/components/PolyMapper.tsx).

The development shallowly embeds the graph store, the name/label
sanitization, the viewport zoom operations, the pointer/touch hit tests,
the screen-to-logical coordinate conversion and the JSON import/export
contract of the source file. JavaScript numbers are modelled as rationals
(ℚ); every arithmetic step of the source is exact on the inputs used here,
so no floating-point rounding is involved in the verified statements.
Strings are Lean strings (lists of characters); the JavaScript
`substring`, `trim`, `toLowerCase` and regex-replace operations used by
the source are reproduced character by character. Failure paths that the
source reports through toast notifications are modelled as explicit error
values, with the store left unchanged exactly when the source returns
early.
-/

namespace PolyMap

/-- Line patterns for relationship edges (PolyMapper.tsx line 25:
`customPattern?: 'solid' | 'dashed' | 'dotted'`). -/
inductive LinePattern
  | solid
  | dashed
  | dotted
deriving DecidableEq, Repr

/-- The nine relationship kinds of `RelationshipType` (PolyMapper.tsx
lines 28-37). -/
inductive RelationshipType
  | committedNesting
  | committed
  | budding
  | sexual
  | platonic
  | queerPlatonic
  | partner
  | play
  | custom
deriving DecidableEq, Repr

/-- The string value each `RelationshipType` variant carries in the source
(the `value` field of `relationshipTypes`, lines 39-49), which is also how
the type is serialized to JSON. -/
def RelationshipType.toValueString : RelationshipType → String
  | .committedNesting => "committed-nesting"
  | .committed => "committed"
  | .budding => "budding"
  | .sexual => "sexual"
  | .platonic => "platonic"
  | .queerPlatonic => "queer-platonic"
  | .partner => "partner"
  | .play => "play"
  | .custom => "custom"

/-- Reading a `RelationshipType` back from its string value. -/
def relationshipTypeOfString (s : String) : Option RelationshipType :=
  if s = "committed-nesting" then some .committedNesting
  else if s = "committed" then some .committed
  else if s = "budding" then some .budding
  else if s = "sexual" then some .sexual
  else if s = "platonic" then some .platonic
  else if s = "queer-platonic" then some .queerPlatonic
  else if s = "partner" then some .partner
  else if s = "play" then some .play
  else if s = "custom" then some .custom
  else none

/-- The string value of a `LinePattern` as it appears in JSON. -/
def LinePattern.toValueString : LinePattern → String
  | .solid => "solid"
  | .dashed => "dashed"
  | .dotted => "dotted"

/-- Reading a `LinePattern` back from its string value. -/
def linePatternOfString (s : String) : Option LinePattern :=
  if s = "solid" then some .solid
  else if s = "dashed" then some .dashed
  else if s = "dotted" then some .dotted
  else none

/-- The `Person` interface (PolyMapper.tsx lines 11-17). -/
structure Person where
  id : String
  name : String
  x : ℚ
  y : ℚ
  color : String
deriving DecidableEq, Repr

/-- The `Relationship` interface (PolyMapper.tsx lines 19-26). The two
optional fields are present exactly when the source object carries them
(`undefined` fields are dropped by `JSON.stringify`). -/
structure Relationship where
  id : String
  «from» : String
  «to» : String
  type : RelationshipType
  customLabel : Option String
  customPattern : Option LinePattern
deriving DecidableEq, Repr

/-- The graph store: the `people` and `relationships` React state of the
component (lines 55-56), in insertion order. -/
structure GraphState where
  people : List Person
  relationships : List Relationship
deriving DecidableEq, Repr

/-- The fixed node palette `nodeColors` (line 51). -/
def nodeColors : List String :=
  ["#ec4899", "#8b5cf6", "#3b82f6", "#10b981", "#f59e0b", "#ef4444"]

/-! ## Name sanitization (`sanitizeName`, lines 244-250)

The source applies, in order: `trim()`, a global replace of the regex
`<[^>]*>` by the empty string, a global replace of the character class
`[<>\"&]` together with the apostrophe by the empty string, and
`substring(0, 50)`. -/

/-- Characters removed by the JavaScript `String.prototype.trim` (the
ECMA-262 WhiteSpace and LineTerminator sets). -/
def jsWhitespace (c : Char) : Bool :=
  c ∈ [' ', '\t', '\n', '\r', '\x0b', '\x0c', ' ', ' ',
       ' ', ' ', ' ', ' ', ' ', ' ',
       ' ', ' ', ' ', ' ', ' ', ' ',
       ' ', ' ', ' ', '　', '﻿']

/-- The JavaScript `trim()`: whitespace removed from both ends. -/
def jsTrim (s : String) : String :=
  (((s.toList.dropWhile jsWhitespace).reverse.dropWhile jsWhitespace).reverse).asString

/-- Scanning past the first `>` of a list: `some rest` keeps what follows
it, `none` when the list holds no `>`. Used to locate the end of a regex
match of `<[^>]*>`, which runs from a `<` to the first `>` after it. -/
def dropThroughGt : List Char → Option (List Char)
  | [] => none
  | c :: cs => if c = '>' then some cs else dropThroughGt cs

/-- One global-replace pass of the regex `<[^>]*>` by the empty string,
written with explicit fuel so that the kernel can evaluate it; each
recursive call strictly shrinks the list, so fuel equal to the length of
the input (as `stripTags` passes) is never exhausted. On a `<` with a
later `>`, the match up to and including that `>` is dropped; on a `<`
with no later `>` no match starts there (nor at any later position, since
no `>` remains), matching the regex semantics. -/
def stripTagsAux : Nat → List Char → List Char
  | 0, l => l
  | _ + 1, [] => []
  | fuel + 1, c :: cs =>
    if c = '<' then
      match dropThroughGt cs with
      | some rest => stripTagsAux fuel rest
      | none => c :: stripTagsAux fuel cs
    else c :: stripTagsAux fuel cs

/-- Global replace of `<[^>]*>` by the empty string (line 247). -/
def stripTags (l : List Char) : List Char := stripTagsAux l.length l

/-- The characters removed by the second replace (line 248): `<`, `>`,
the double quote, the apostrophe and `&`. -/
def dangerousChar (c : Char) : Bool :=
  c ∈ ['<', '>', '"', '\'', '&']

/-- The `sanitizeName` helper (lines 244-250): trim, strip HTML-like
tags, strip dangerous characters, cap at 50 characters. -/
def sanitizeName (name : String) : String :=
  (((stripTags (jsTrim name).toList).filter (fun c => !dangerousChar c)).take 50).asString

/-- JavaScript `toLowerCase` restricted to the ASCII range, which is all
the duplicate-name check of `addPerson` needs for the inputs modelled
here. -/
def toLowerString (s : String) : String := (s.toList.map Char.toLower).asString

/-! ## Graph store operations -/

/-- The failure cases of `addPerson` (lines 266-282), one per toast. -/
inductive PersonError
  | invalidName
  | nameTooLong
  | duplicateName
deriving DecidableEq, Repr

/-- The `addPerson` handler (lines 266-295). The generated id
(`Date.now().toString()`) and the random position are passed in as
parameters `newId`, `px`, `py`; the palette color is assigned by
`people.length % nodeColors.length` as in line 289. -/
def addPerson (s : GraphState) (newPersonName : String) (newId : String)
    (px py : ℚ) : Except PersonError GraphState :=
  let sanitizedName := sanitizeName newPersonName
  if sanitizedName = "" then .error .invalidName
  else if sanitizedName.length > 50 then .error .nameTooLong
  else if s.people.any (fun p => toLowerString p.name = toLowerString sanitizedName) then
    .error .duplicateName
  else
    let newPerson : Person :=
      { id := newId
        name := sanitizedName
        x := px
        y := py
        color := nodeColors.getD (s.people.length % nodeColors.length) "" }
    .ok { s with people := s.people ++ [newPerson] }

/-- The `removePerson` handler (lines 407-410): filter the person out and
filter out every relationship whose `from` or `to` is the removed id. -/
def removePerson (s : GraphState) (id : String) : GraphState :=
  { people := s.people.filter (fun p => p.id != id),
    relationships := s.relationships.filter
      (fun rel => rel.«from» != id && rel.«to» != id) }

/-- The duplicate check of `addRelationship` (lines 363-366): an existing
relationship with the same endpoints in either direction. -/
def relationshipExists (rels : List Relationship) (selectedFrom selectedTo : String) : Bool :=
  rels.any (fun rel =>
    (rel.«from» == selectedFrom && rel.«to» == selectedTo) ||
    (rel.«from» == selectedTo && rel.«to» == selectedFrom))

/-- The failure cases of `addRelationship` (lines 351-371), one per
toast. -/
inductive RelationshipError
  | selectTwoDifferent
  | customLabelRequired
  | alreadyExists
deriving DecidableEq, Repr

/-- The `addRelationship` handler (lines 351-401). The guards mirror the
source in order: the JavaScript falsiness of `selectedFrom` and
`selectedTo` (empty string) or equal ids; a custom type whose label is
empty after `trim()`; an unordered-pair duplicate. On success the new
relationship is appended, with `customLabel` set to the sanitized label
and `customPattern` set exactly when the type is custom (lines 373-382).
The generated id is the parameter `newId`. -/
def addRelationship (s : GraphState) (selectedFrom selectedTo : String)
    (selectedRelType : RelationshipType) (customLabel : String)
    (customPattern : LinePattern) (newId : String) :
    Except RelationshipError GraphState :=
  if selectedFrom == "" || selectedTo == "" || selectedFrom == selectedTo then
    .error .selectTwoDifferent
  else if selectedRelType == .custom && jsTrim customLabel == "" then
    .error .customLabelRequired
  else if relationshipExists s.relationships selectedFrom selectedTo then
    .error .alreadyExists
  else
    let newRelationship : Relationship :=
      { id := newId
        «from» := selectedFrom
        «to» := selectedTo
        type := selectedRelType
        customLabel := if selectedRelType = .custom then some (sanitizeName customLabel) else none
        customPattern := if selectedRelType = .custom then some customPattern else none }
    .ok { s with relationships := s.relationships ++ [newRelationship] }

/-- The store after an `addRelationship` call as the component sees it: the
new state on success, the old state untouched when a guard fired. -/
def runAddRelationship (s : GraphState) (selectedFrom selectedTo : String)
    (selectedRelType : RelationshipType) (customLabel : String)
    (customPattern : LinePattern) (newId : String) : GraphState :=
  match addRelationship s selectedFrom selectedTo selectedRelType customLabel customPattern newId with
  | .ok s₁ => s₁
  | .error _ => s

/-! ## Viewport zoom (lines 412-428 and 538-546) -/

/-- The `zoomIn` handler (lines 418-422): multiply by 1.2, clamp above
at 3.0. -/
def zoomIn (zoomLevel : ℚ) : ℚ := min 3.0 (zoomLevel * 1.2)

/-- The `zoomOut` handler (lines 424-428): divide by 1.2, clamp below
at 0.5. -/
def zoomOut (zoomLevel : ℚ) : ℚ := max 0.5 (zoomLevel / 1.2)

/-- The pinch-zoom step of `handleTouchMove` (line 542): multiply by the
ratio of consecutive two-finger distances, clamp to the range. -/
def pinchZoom (zoomLevel zoomFactor : ℚ) : ℚ := max 0.5 (min 3.0 (zoomLevel * zoomFactor))

/-- The zoom level after `resetView` (line 414). -/
def resetViewZoom : ℚ := 1.0

/-- One zoom operation of the component: the discrete buttons, a pinch
step carrying the distance ratio of the gesture, or the reset button. -/
inductive ZoomOp
  | zin
  | zout
  | pinch (factor : ℚ)
  | reset
deriving Repr

/-- The zoom level after one operation. -/
def applyZoomOp (zoomLevel : ℚ) : ZoomOp → ℚ
  | .zin => zoomIn zoomLevel
  | .zout => zoomOut zoomLevel
  | .pinch factor => pinchZoom zoomLevel factor
  | .reset => resetViewZoom

/-- The zoom level after a sequence of operations. -/
def applyZoomOps (ops : List ZoomOp) (zoomLevel : ℚ) : ℚ :=
  ops.foldl applyZoomOp zoomLevel

/-! ## Hit tests (lines 472-479 and 500-508)

Both handlers compare the Euclidean distance from the logical cursor
position to a node center against a zoom-adjusted radius. The source
compares `Math.sqrt(dx*dx + dy*dy) < threshold`; with a positive
threshold (nodeRadius is 25 or 35 and the zoom level is in [0.5, 3])
this holds exactly when `dx*dx + dy*dy < threshold^2`, which is the form
used here so that the model stays inside ℚ. -/

/-- The squared distance from a cursor position to a person node. -/
def distSq (p : Person) (cx cy : ℚ) : ℚ := (cx - p.x) ^ 2 + (cy - p.y) ^ 2

/-- The hit test of `handleMouseDown` (lines 473-474): accepts when the
distance is below `nodeRadius / zoomLevel`. -/
def mouseDownHits (p : Person) (cx cy nodeRadius zoomLevel : ℚ) : Prop :=
  distSq p cx cy < (nodeRadius / zoomLevel) ^ 2

/-- The hit test of `handleTouchStart` (lines 501-502): accepts when the
distance is below `nodeRadius * zoomLevel`. -/
def touchStartHits (p : Person) (cx cy nodeRadius zoomLevel : ℚ) : Prop :=
  distSq p cx cy < (nodeRadius * zoomLevel) ^ 2

/-! ## Screen-to-logical conversion (`getEventCoordinates`, lines 439-465) -/

/-- The coordinate conversion of `getEventCoordinates` (lines 461-462):
`((client - rectOrigin) * scale / devicePixelRatio - panOffset) / zoomLevel`
in each axis, where `scale` is the ratio of the canvas backing-surface
size to its display size. -/
def getEventCoordinates (clientX clientY rectLeft rectTop scaleX scaleY
    dpr panX panY zoomLevel : ℚ) : ℚ × ℚ :=
  (((clientX - rectLeft) * scaleX / dpr - panX) / zoomLevel,
   ((clientY - rectTop) * scaleY / dpr - panY) / zoomLevel)

/-- The conversion as the spec states it (spec section 4.2):
`screenToLogical(screenPoint, devicePixelRatio)` is
`(screenPoint / devicePixelRatio - panOffset) / zoom`, with the screen
point given in backing-surface pixels relative to the canvas origin. -/
def specScreenToLogical (screenX screenY dpr panX panY zoomLevel : ℚ) : ℚ × ℚ :=
  ((screenX / dpr - panX) / zoomLevel, (screenY / dpr - panY) / zoomLevel)

/-! ## JSON documents and the import/export contract (lines 297-349)

A JSON document is modelled structurally; `JSON.parse` failure is the
`none` case of the optional document handed to the import. Field order of
serialized objects follows the insertion order of the source object
literals, as `JSON.stringify` does. -/

/-- A parsed JSON value. -/
inductive Json
  | null
  | bool (b : Bool)
  | num (q : ℚ)
  | str (s : String)
  | arr (elems : List Json)
  | obj (fields : List (String × Json))

/-- Lookup of an object field by key, first match. -/
def lookupField : List (String × Json) → String → Option Json
  | [], _ => none
  | (k, v) :: rest, key => if k = key then some v else lookupField rest key

/-- JavaScript property access `value.key`: the field when `value` is an
object that has it, otherwise `undefined`, here `none`. -/
def getField : Json → String → Option Json
  | .obj fields, key => lookupField fields key
  | _, _ => none

/-- JavaScript truthiness of a possibly-undefined value: `undefined`,
`null`, `false`, `0` and the empty string are falsy; every object,
array and other primitive value is truthy. -/
def jsTruthy : Option Json → Bool
  | none => false
  | some .null => false
  | some (.bool b) => b
  | some (.num q) => q != 0
  | some (.str s) => s != ""
  | some (.arr _) => true
  | some (.obj _) => true

/-- The elements of a value that is an array, `none` otherwise. -/
def asArray : Option Json → Option (List Json)
  | some (.arr elems) => some elems
  | _ => none

/-- `Array.isArray` on a possibly-undefined value. -/
def isArray (j : Option Json) : Bool := (asArray j).isSome

/-- Whether a possibly-undefined value is a number (`typeof v === number`). -/
def isNumber : Option Json → Bool
  | some (.num _) => true
  | _ => false

/-- The per-person shape check of the import (lines 331-333): truthy
`id`, truthy `name`, numeric `x` and `y`. -/
def validPersonJson (person : Json) : Bool :=
  jsTruthy (getField person "id") && jsTruthy (getField person "name") &&
    isNumber (getField person "x") && isNumber (getField person "y")

/-- The store as the import sees it: the raw people and relationships
arrays, since `setPeople(data.people)` and
`setRelationships(data.relationships)` (lines 340-341) install the parsed
JSON arrays verbatim. -/
structure ImportState where
  peopleJson : List Json
  relationshipsJson : List Json

/-- The validated part of `importData` (lines 320-346): `none` stands for
a document `JSON.parse` rejected; a parsed document is rejected unless
`people` and `relationships` are truthy arrays and every person passes
the shape check; an accepted document replaces the whole store. -/
def importData (doc : Option Json) (s : ImportState) : ImportState :=
  match doc with
  | none => s
  | some data =>
    if !jsTruthy (getField data "people") || !jsTruthy (getField data "relationships")
        || !isArray (getField data "people") || !isArray (getField data "relationships") then
      s
    else
      match asArray (getField data "people"), asArray (getField data "relationships") with
      | some ps, some rs =>
        if ps.all validPersonJson then { peopleJson := ps, relationshipsJson := rs } else s
      | _, _ => s

/-- Whether `importData` accepts a document, written out as the chain of
checks of lines 325-338. -/
def importAccepts : Option Json → Bool
  | none => false
  | some data =>
    jsTruthy (getField data "people") && jsTruthy (getField data "relationships") &&
      isArray (getField data "people") && isArray (getField data "relationships") &&
      ((asArray (getField data "people")).getD []).all validPersonJson

/-- The `people` array of an accepted document. -/
def docPeople (data : Json) : List Json := (asArray (getField data "people")).getD []

/-- The `relationships` array of an accepted document. -/
def docRelationships (data : Json) : List Json :=
  (asArray (getField data "relationships")).getD []

/-- Serialization of a `Person`, field for field in declaration order, as
`JSON.stringify` renders the object (lines 284-290 build it in this
order). -/
def personToJson (p : Person) : Json :=
  .obj [("id", .str p.id), ("name", .str p.name), ("x", .num p.x),
        ("y", .num p.y), ("color", .str p.color)]

/-- Serialization of a `Relationship` (built in lines 375-382):
`JSON.stringify` drops the fields that are `undefined`, so the two custom
fields appear exactly when present. -/
def relationshipToJson (r : Relationship) : Json :=
  .obj ([("id", .str r.id), ("from", .str r.«from»), ("to", .str r.«to»),
         ("type", .str r.type.toValueString)] ++
    (match r.customLabel with
     | some l => [("customLabel", .str l)]
     | none => []) ++
    (match r.customPattern with
     | some pat => [("customPattern", .str pat.toValueString)]
     | none => []))

/-- The document `exportData` writes (lines 297-299):
`{ people, relationships }` serialized verbatim. -/
def exportData (s : GraphState) : Json :=
  .obj [("people", .arr (s.people.map personToJson)),
        ("relationships", .arr (s.relationships.map relationshipToJson))]

/-- Reading a serialized person back into a `Person`: the exact inverse
shape of `personToJson`. -/
def personOfJson : Json → Option Person
  | .obj [("id", .str id), ("name", .str name), ("x", .num x), ("y", .num y),
          ("color", .str color)] =>
    some { id := id, name := name, x := x, y := y, color := color }
  | _ => none

/-- Reading a serialized relationship back into a `Relationship`: the
exact inverse shapes of `relationshipToJson`, one per combination of
present optional fields. -/
def relationshipOfJson : Json → Option Relationship
  | .obj [("id", .str i), ("from", .str f), ("to", .str t), ("type", .str ty)] =>
    (relationshipTypeOfString ty).map
      (fun rt => { id := i, «from» := f, «to» := t, type := rt,
                   customLabel := none, customPattern := none })
  | .obj [("id", .str i), ("from", .str f), ("to", .str t), ("type", .str ty),
          ("customLabel", .str l)] =>
    (relationshipTypeOfString ty).map
      (fun rt => { id := i, «from» := f, «to» := t, type := rt,
                   customLabel := some l, customPattern := none })
  | .obj [("id", .str i), ("from", .str f), ("to", .str t), ("type", .str ty),
          ("customPattern", .str pat)] =>
    match relationshipTypeOfString ty, linePatternOfString pat with
    | some rt, some lp =>
      some { id := i, «from» := f, «to» := t, type := rt,
             customLabel := none, customPattern := some lp }
    | _, _ => none
  | .obj [("id", .str i), ("from", .str f), ("to", .str t), ("type", .str ty),
          ("customLabel", .str l), ("customPattern", .str pat)] =>
    match relationshipTypeOfString ty, linePatternOfString pat with
    | some rt, some lp =>
      some { id := i, «from» := f, «to» := t, type := rt,
             customLabel := some l, customPattern := some lp }
    | _, _ => none
  | _ => none

/-- Decoding every element of a list, failing when one element fails. -/
def decodeList (f : Json → Option α) : List Json → Option (List α)
  | [] => some []
  | j :: js =>
    match f j, decodeList f js with
    | some a, some rest => some (a :: rest)
    | _, _ => none

/-! ## Theorems -/

/-- Claim C1: `removePerson(id)` removes the person with that id (when
present) and every relationship whose `from` or `to` field equals the id,
so no remaining relationship references it; every other person and
relationship is retained. -/
theorem removePerson_spec (s : GraphState) (id : String) :
    (∀ p : Person, p ∈ (removePerson s id).people ↔ p ∈ s.people ∧ p.id ≠ id) ∧
    (∀ rel : Relationship, rel ∈ (removePerson s id).relationships ↔
      rel ∈ s.relationships ∧ rel.«from» ≠ id ∧ rel.«to» ≠ id) := by
  constructor
  · intro p
    simp [removePerson, List.mem_filter]
  · intro rel
    simp [removePerson, List.mem_filter, and_assoc]

/-- A person at the logical origin, used as the concrete input exhibiting
the zoom-adjustment mismatch between the two hit tests. -/
def personAtOrigin : Person :=
  { id := "p1", name := "P", x := 0, y := 0, color := "#ec4899" }

/-- Claim C2 fails on the code: at zoom level 2 with the desktop node
radius 25, the logical cursor position (20, 0) over a node at the origin
is rejected by the mouse-down hit test (threshold 25 / 2 = 12.5) but
accepted by the touch-start hit test (threshold 25 * 2 = 50). The two
handlers adjust the radius by the zoom level in opposite directions, so
they do not accept the same set of logical cursor positions. -/
theorem hitTest_zoom_mismatch :
    ¬ mouseDownHits personAtOrigin 20 0 25 2 ∧ touchStartHits personAtOrigin 20 0 25 2 := by
  constructor
  · intro hM
    norm_num [mouseDownHits, distSq, personAtOrigin] at hM
  · norm_num [touchStartHits, distSq, personAtOrigin]

/-- One zoom operation keeps the zoom level inside [0.5, 3.0]. -/
theorem applyZoomOp_bounds {z : ℚ} (h1 : 0.5 ≤ z) (h2 : z ≤ 3.0) (op : ZoomOp) :
    0.5 ≤ applyZoomOp z op ∧ applyZoomOp z op ≤ 3.0 := by
  cases op with
  | zin =>
    refine ⟨le_min (by norm_num) (by nlinarith), ?_⟩
    simp only [applyZoomOp, zoomIn]
    exact min_le_left (3.0 : ℚ) (z * 1.2)
  | zout =>
    refine ⟨le_max_left _ _, max_le (by norm_num) ?_⟩
    rw [div_le_iff₀ (by norm_num)]
    nlinarith
  | pinch factor =>
    exact ⟨le_max_left _ _, max_le (by norm_num) (min_le_left _ _)⟩
  | reset =>
    norm_num [applyZoomOp, resetViewZoom]

/-- A sequence of zoom operations keeps the zoom level inside
[0.5, 3.0]. -/
theorem applyZoomOps_bounds (ops : List ZoomOp) :
    ∀ z : ℚ, 0.5 ≤ z → z ≤ 3.0 →
      0.5 ≤ applyZoomOps ops z ∧ applyZoomOps ops z ≤ 3.0 := by
  induction ops with
  | nil => intro z h1 h2; exact ⟨h1, h2⟩
  | cons op ops ih =>
    intro z h1 h2
    have hstep := applyZoomOp_bounds h1 h2 op
    simpa [applyZoomOps] using ih (applyZoomOp z op) hstep.1 hstep.2

/-- Zooming in at the ceiling stays at the ceiling. -/
theorem applyZoomOps_replicate_zin_three (n : ℕ) :
    applyZoomOps (List.replicate n ZoomOp.zin) 3.0 = 3.0 := by
  induction n with
  | zero => rfl
  | succ n ih =>
    have hstep : applyZoomOp 3.0 ZoomOp.zin = 3.0 := by
      norm_num [applyZoomOp, zoomIn, min_def]
    simpa [List.replicate_succ, applyZoomOps, hstep] using ih

/-- Claim C6: starting from zoom level 1.0, every sequence of zoom-in,
zoom-out, pinch and reset operations leaves the zoom level in [0.5, 3.0];
and repeated zoom-in from 1.0 reaches 3.0 after 7 steps and stays there
from then on. -/
theorem zoomLevel_clamped_and_saturates :
    (∀ ops : List ZoomOp, 0.5 ≤ applyZoomOps ops 1.0 ∧ applyZoomOps ops 1.0 ≤ 3.0) ∧
    (∀ n : ℕ, applyZoomOps (List.replicate (7 + n) ZoomOp.zin) 1.0 = 3.0) := by
  constructor
  · intro ops
    exact applyZoomOps_bounds ops 1.0 (by norm_num) (by norm_num)
  · intro n
    have h7 : applyZoomOps (List.replicate 7 ZoomOp.zin) 1.0 = 3.0 := by
      norm_num [applyZoomOps, List.replicate, applyZoomOp, zoomIn, min_def]
    calc applyZoomOps (List.replicate (7 + n) ZoomOp.zin) 1.0
        = applyZoomOps (List.replicate n ZoomOp.zin)
            (applyZoomOps (List.replicate 7 ZoomOp.zin) 1.0) := by
          rw [List.replicate_add]
          simp [applyZoomOps]
      _ = 3.0 := by rw [h7]; exact applyZoomOps_replicate_zin_three n

/-- Claim C9: the conversion of `getEventCoordinates` is exactly
`(screenPoint / devicePixelRatio - panOffset) / zoom` with the screen
point taken in backing-surface pixels relative to the canvas origin,
axis by axis. -/
theorem getEventCoordinates_eq_specScreenToLogical
    (clientX clientY rectLeft rectTop scaleX scaleY dpr panX panY zoomLevel : ℚ) :
    getEventCoordinates clientX clientY rectLeft rectTop scaleX scaleY dpr panX panY zoomLevel =
      specScreenToLogical ((clientX - rectLeft) * scaleX) ((clientY - rectTop) * scaleY)
        dpr panX panY zoomLevel := rfl

/-- Claim C10: the sanitized name is never longer than 50 characters, so
the `addPerson` branch that rejects a sanitized name longer than 50
characters can never fire. -/
theorem addPerson_tooLong_unreachable :
    (∀ name : String, (sanitizeName name).length ≤ 50) ∧
    (∀ (s : GraphState) (name newId : String) (px py : ℚ),
      addPerson s name newId px py ≠ .error .nameTooLong) := by
  have hlen : ∀ name : String, (sanitizeName name).length ≤ 50 := by
    intro name
    show (List.take 50 _).length ≤ 50
    exact List.length_take_le 50 _
  refine ⟨hlen, ?_⟩
  intro s name newId px py h
  unfold addPerson at h
  dsimp only at h
  split_ifs at h with g1 g2 g3
  all_goals
    first
    | exact PersonError.noConfusion (Except.error.inj h)
    | exact Except.noConfusion h
    | (have hle := hlen name; omega)

/-- The relationship object `addRelationship` appends on success (built
in lines 375-382), named so that theorem statements can refer to it. -/
def appendedRelationship (a b : String) (ty : RelationshipType) (lbl : String)
    (pat : LinePattern) (nid : String) : Relationship :=
  { id := nid
    «from» := a
    «to» := b
    type := ty
    customLabel := if ty = RelationshipType.custom then some (sanitizeName lbl) else none
    customPattern := if ty = RelationshipType.custom then some pat else none }

/-- The first guard of `addRelationship` is off for non-empty distinct
ids. -/
theorem firstGuard_false {a b : String} (h1 : a ≠ "") (h2 : b ≠ "") (h3 : a ≠ b) :
    (a == "" || b == "" || a == b) = false := by
  simp [h1, h2, h3]

/-- The custom-label guard of `addRelationship` is off when the type is
not custom or the label does not trim to the empty string. -/
theorem customGuard_false {ty : RelationshipType} {lbl : String}
    (h : ty = RelationshipType.custom → jsTrim lbl ≠ "") :
    (ty == RelationshipType.custom && jsTrim lbl == "") = false := by
  by_cases hty : ty = RelationshipType.custom
  · simp [hty, h hty]
  · simp [hty]

/-- With all three guards off, `addRelationship` appends the new
relationship. -/
theorem addRelationship_ok_of_guards (s : GraphState) (a b : String)
    (ty : RelationshipType) (lbl : String) (pat : LinePattern) (nid : String)
    (g1 : (a == "" || b == "" || a == b) = false)
    (g2 : (ty == RelationshipType.custom && jsTrim lbl == "") = false)
    (g3 : relationshipExists s.relationships a b = false) :
    addRelationship s a b ty lbl pat nid =
      .ok { s with relationships := s.relationships ++ [appendedRelationship a b ty lbl pat nid] } := by
  unfold addRelationship appendedRelationship
  rw [if_neg (by simp [g1]), if_neg (by simp [g2]), if_neg (by simp [g3])]

/-- Claim C4 counterexample: on a store with no people at all, so that
neither id names an existing person, `addRelationship` succeeds and
appends a relationship with dangling endpoints instead of failing. -/
theorem addRelationship_unknown_ids_not_rejected :
    addRelationship { people := [], relationships := [] } "a" "b"
      RelationshipType.platonic "" LinePattern.solid "1" =
      .ok { people := [],
            relationships := [appendedRelationship "a" "b" RelationshipType.platonic "" LinePattern.solid "1"] } := rfl

/-- Claim C4 amended: `addRelationship` performs no existence check on its
endpoint ids. It fails only on an empty or equal pair of ids, on a custom
type whose label trims to empty, or on an unordered-pair duplicate; when
none of those guards fire it appends the relationship even though neither
id need belong to any person in the store. -/
theorem addRelationship_no_existence_check (s : GraphState) (a b : String)
    (ty : RelationshipType) (lbl : String) (pat : LinePattern) (nid : String)
    (h1 : a ≠ "") (h2 : b ≠ "") (h3 : a ≠ b)
    (h4 : ty = RelationshipType.custom → jsTrim lbl ≠ "")
    (h5 : relationshipExists s.relationships a b = false) :
    addRelationship s a b ty lbl pat nid =
      .ok { s with relationships := s.relationships ++ [appendedRelationship a b ty lbl pat nid] } :=
  addRelationship_ok_of_guards s a b ty lbl pat nid
    (firstGuard_false h1 h2 h3) (customGuard_false h4) h5

/-- Witness for the amended C4 at a concrete input: both ids are unknown
(the people list is empty) and the call still appends. -/
theorem addRelationship_no_existence_check_witness :
    addRelationship { people := [], relationships := [] } "x" "y"
      RelationshipType.partner "" LinePattern.dashed "7" =
      .ok { people := [],
            relationships := [appendedRelationship "x" "y" RelationshipType.partner "" LinePattern.dashed "7"] } :=
  addRelationship_no_existence_check { people := [], relationships := [] } "x" "y"
    RelationshipType.partner "" LinePattern.dashed "7"
    (by decide) (by decide) (by decide) (by decide) rfl

/-- The unordered duplicate check is symmetric in its two ids. -/
theorem relationshipExists_symm {rels : List Relationship} {a b : String}
    (h : relationshipExists rels a b = true) :
    relationshipExists rels b a = true := by
  simp only [relationshipExists, List.any_eq_true] at h ⊢
  obtain ⟨rel, hmem, hcond⟩ := h
  refine ⟨rel, hmem, ?_⟩
  simp only [Bool.or_eq_true, Bool.and_eq_true] at hcond ⊢
  tauto

/-- Claim C7: when the store already holds a relationship between a and b
in either stored direction, a subsequent `addRelationship(b, a, t)` leaves
the relationships sequence unchanged, and is rejected precisely as a
duplicate whenever the earlier guards (empty or equal ids, missing custom
label) do not fire first. -/
theorem addRelationship_duplicate_unordered (s : GraphState) (a b : String)
    (ty : RelationshipType) (lbl : String) (pat : LinePattern) (nid : String)
    (h : relationshipExists s.relationships a b = true) :
    runAddRelationship s b a ty lbl pat nid = s ∧
    (a ≠ "" → b ≠ "" → a ≠ b →
      (ty = RelationshipType.custom → jsTrim lbl ≠ "") →
      addRelationship s b a ty lbl pat nid = .error .alreadyExists) := by
  have hba : relationshipExists s.relationships b a = true := relationshipExists_symm h
  have herr : ∃ e, addRelationship s b a ty lbl pat nid = .error e := by
    unfold addRelationship
    by_cases g1 : (b == "" || a == "" || b == a) = true
    · rw [if_pos g1]; exact ⟨_, rfl⟩
    · rw [if_neg g1]
      by_cases g2 : (ty == RelationshipType.custom && jsTrim lbl == "") = true
      · rw [if_pos g2]; exact ⟨_, rfl⟩
      · rw [if_neg g2, if_pos hba]; exact ⟨_, rfl⟩
  constructor
  · obtain ⟨e, he⟩ := herr
    simp [runAddRelationship, he]
  · intro k1 k2 k3 k4
    unfold addRelationship
    rw [if_neg (by simp [firstGuard_false k2 k1 (Ne.symm k3)]),
        if_neg (by simp [customGuard_false k4]), if_pos hba]

/-- Alice, a concrete person used by the concrete store states below. -/
def alice : Person := { id := "a1", name := "Alice", x := 0, y := 0, color := "#ec4899" }

/-- Bob, a concrete person used by the concrete store states below. -/
def bob : Person := { id := "b1", name := "Bob", x := 0, y := 0, color := "#8b5cf6" }

/-- A concrete platonic relationship from Alice to Bob. -/
def relAB : Relationship :=
  { id := "r1", «from» := "a1", «to» := "b1", type := RelationshipType.platonic,
    customLabel := none, customPattern := none }

/-- A concrete store holding Alice, Bob and the relationship between
them. -/
def dupState : GraphState := { people := [alice, bob], relationships := [relAB] }

/-- A concrete store holding Alice and Bob with no relationships. -/
def abState : GraphState := { people := [alice, bob], relationships := [] }

/-- Witness for C7 at a concrete input: the scenario of the spec, with the
second call using swapped ids. -/
theorem addRelationship_duplicate_unordered_witness :
    runAddRelationship dupState "b1" "a1" RelationshipType.platonic "" LinePattern.solid "r2" = dupState ∧
    addRelationship dupState "b1" "a1" RelationshipType.platonic "" LinePattern.solid "r2" =
      .error .alreadyExists := by
  have h := addRelationship_duplicate_unordered dupState "a1" "b1"
    RelationshipType.platonic "" LinePattern.solid "r2" rfl
  exact ⟨h.1, h.2 (by decide) (by decide) (by decide) (by decide)⟩

/-- Claim C8 counterexample: the label `<>` is nonempty after trim, so the
custom-label guard passes, yet `sanitizeName` maps it to the empty string:
the call succeeds and the created custom relationship stores an empty
sanitized customLabel. -/
theorem addRelationship_custom_empty_sanitized_label :
    sanitizeName "<>" = "" ∧
    addRelationship abState "a1" "b1" RelationshipType.custom "<>" LinePattern.solid "r1" =
      .ok { abState with
            relationships := [appendedRelationship "a1" "b1" RelationshipType.custom "<>" LinePattern.solid "r1"] } ∧
    (appendedRelationship "a1" "b1" RelationshipType.custom "<>" LinePattern.solid "r1").customLabel =
      some "" := ⟨rfl, rfl, rfl⟩

/-- Claim C8 amended: with non-empty distinct endpoint ids, a custom
`addRelationship` fails with the custom-label error exactly when the label
is empty after trim alone (not after full sanitization); on success the
stored customLabel is the fully sanitized label, which can be empty. -/
theorem addRelationship_custom_trim_guard (s : GraphState) (a b : String)
    (lbl : String) (pat : LinePattern) (nid : String)
    (h1 : a ≠ "") (h2 : b ≠ "") (h3 : a ≠ b) :
    (addRelationship s a b RelationshipType.custom lbl pat nid = .error .customLabelRequired ↔
      jsTrim lbl = "") ∧
    (jsTrim lbl ≠ "" → relationshipExists s.relationships a b = false →
      addRelationship s a b RelationshipType.custom lbl pat nid =
        .ok { s with relationships :=
              s.relationships ++ [appendedRelationship a b RelationshipType.custom lbl pat nid] }) := by
  have g1 : (a == "" || b == "" || a == b) = false := firstGuard_false h1 h2 h3
  constructor
  · constructor
    · intro he
      by_contra hne
      have g2 : (RelationshipType.custom == RelationshipType.custom && jsTrim lbl == "") = false :=
        customGuard_false (fun _ => hne)
      unfold addRelationship at he
      rw [if_neg (by simp [g1]), if_neg (by simp [g2, hne])] at he
      by_cases g3 : relationshipExists s.relationships a b = true
      · rw [if_pos g3] at he
        exact RelationshipError.noConfusion (Except.error.inj he)
      · rw [if_neg g3] at he
        exact Except.noConfusion he
    · intro he
      unfold addRelationship
      rw [if_neg (by simp [g1]), if_pos (by simp [he])]
  · intro hne g3
    exact addRelationship_ok_of_guards s a b RelationshipType.custom lbl pat nid g1
      (customGuard_false (fun _ => hne)) g3

/-- Witness for the amended C8 at a concrete input: a label of blanks
trims to empty and is rejected. -/
theorem addRelationship_custom_trim_guard_witness :
    addRelationship abState "a1" "b1" RelationshipType.custom "   " LinePattern.dotted "r9" =
      .error .customLabelRequired :=
  (addRelationship_custom_trim_guard abState "a1" "b1" "   " LinePattern.dotted "r9"
    (by decide) (by decide) (by decide)).1.mpr (by decide)

/-- Inversion for `asArray`: only an array answers `some`. -/
theorem asArray_eq_some {o : Option Json} {xs : List Json}
    (h : asArray o = some xs) : o = some (Json.arr xs) := by
  rcases o with _ | j
  · simp [asArray] at h
  · rcases j with _ | b | q | st | elems | fields <;> simp [asArray] at h
    rw [h]

/-- A serialized person passes the import shape check as soon as its id
and name are non-empty. -/
theorem validPersonJson_personToJson (p : Person) (hid : p.id ≠ "") (hname : p.name ≠ "") :
    validPersonJson (personToJson p) = true := by
  have h1 : getField (personToJson p) "id" = some (.str p.id) := rfl
  have h2 : getField (personToJson p) "name" = some (.str p.name) := rfl
  have h3 : getField (personToJson p) "x" = some (.num p.x) := rfl
  have h4 : getField (personToJson p) "y" = some (.num p.y) := rfl
  simp [validPersonJson, h1, h2, h3, h4, jsTruthy, isNumber, hid, hname]

/-- Claim C3: a document that fails the import validation leaves the
store exactly as it was; an accepted document replaces both sequences
entirely with the arrays of the document. -/
theorem importData_rejects_or_replaces (doc : Option Json) (s : ImportState) :
    (importAccepts doc = false → importData doc s = s) ∧
    (∀ data, doc = some data → importAccepts doc = true →
      importData doc s =
        { peopleJson := docPeople data, relationshipsJson := docRelationships data }) := by
  cases doc with
  | none => exact ⟨fun _ => rfl, fun data hd => Option.noConfusion hd⟩
  | some data =>
    cases hp : asArray (getField data "people") with
    | none =>
      have hacc : importAccepts (some data) = false := by
        simp [importAccepts, isArray, hp]
      have himp : importData (some data) s = s := by
        simp [importData, isArray, hp]
      exact ⟨fun _ => himp, fun d hd ha => by rw [hacc] at ha; cases ha⟩
    | some ps =>
      have hgp : getField data "people" = some (.arr ps) := asArray_eq_some hp
      cases hr : asArray (getField data "relationships") with
      | none =>
        have hacc : importAccepts (some data) = false := by
          simp [importAccepts, isArray, hr]
        have himp : importData (some data) s = s := by
          simp [importData, isArray, hr]
        exact ⟨fun _ => himp, fun d hd ha => by rw [hacc] at ha; cases ha⟩
      | some rs =>
        have hgr : getField data "relationships" = some (.arr rs) := asArray_eq_some hr
        cases hv : ps.all validPersonJson with
        | true =>
          have hacc : importAccepts (some data) = true := by
            simp [importAccepts, isArray, hp, hr, hgp, hgr, jsTruthy, asArray, hv]
          have himp : importData (some data) s =
              { peopleJson := ps, relationshipsJson := rs } := by
            simp [importData, isArray, hp, hr, hgp, hgr, jsTruthy, asArray, hv]
          refine ⟨fun hf => ?_, fun d hd ha => ?_⟩
          · rw [hacc] at hf; cases hf
          · injection hd with hdd
            subst hdd
            rw [himp]
            simp [docPeople, docRelationships, hp, hr]
        | false =>
          have hacc : importAccepts (some data) = false := by
            simp [importAccepts, isArray, hp, hr, hgp, hgr, jsTruthy, asArray, hv]
          have himp : importData (some data) s = s := by
            simp [importData, isArray, hp, hr, hgp, hgr, jsTruthy, asArray, hv]
          exact ⟨fun _ => himp, fun d hd ha => by rw [hacc] at ha; cases ha⟩

/-- Decoding a list that was produced by serializing element for element
recovers the original list. -/
theorem decodeList_roundtrip {α : Type} (f : Json → Option α) (g : α → Json)
    (hfg : ∀ a, f (g a) = some a) (l : List α) :
    decodeList f (l.map g) = some l := by
  induction l with
  | nil => rfl
  | cons a l ih => simp [decodeList, hfg, ih]

/-- Reading back a serialized person recovers the person. -/
theorem personOfJson_personToJson (p : Person) : personOfJson (personToJson p) = some p := rfl

/-- The relationship-type string round-trips. -/
theorem relationshipTypeOfString_roundtrip (ty : RelationshipType) :
    relationshipTypeOfString ty.toValueString = some ty := by
  cases ty <;> rfl

/-- Reading back a serialized relationship recovers the relationship. -/
theorem relationshipOfJson_relationshipToJson (r : Relationship) :
    relationshipOfJson (relationshipToJson r) = some r := by
  obtain ⟨i, f, t, ty, cl, cp⟩ := r
  rcases cl with _ | l <;> rcases cp with _ | lp
  · cases ty <;> rfl
  · cases lp <;> cases ty <;> rfl
  · cases ty <;> rfl
  · cases lp <;> cases ty <;> rfl

/-- Claim C5: exporting a store whose people all carry non-empty ids and
names (which is every store the component can build) and importing the
resulting document succeeds, installs exactly the serialized arrays, and
those arrays decode back to the original people and relationships
sequences. -/
theorem export_import_roundtrip (s : GraphState) (t : ImportState)
    (h : ∀ p ∈ s.people, p.id ≠ "" ∧ p.name ≠ "") :
    importData (some (exportData s)) t =
      { peopleJson := s.people.map personToJson,
        relationshipsJson := s.relationships.map relationshipToJson } ∧
    decodeList personOfJson (s.people.map personToJson) = some s.people ∧
    decodeList relationshipOfJson (s.relationships.map relationshipToJson) =
      some s.relationships := by
  refine ⟨?_, decodeList_roundtrip _ _ personOfJson_personToJson _,
    decodeList_roundtrip _ _ relationshipOfJson_relationshipToJson _⟩
  have hgp : getField (exportData s) "people" =
      some (.arr (s.people.map personToJson)) := rfl
  have hgr : getField (exportData s) "relationships" =
      some (.arr (s.relationships.map relationshipToJson)) := rfl
  have hall : (s.people.map personToJson).all validPersonJson = true := by
    rw [List.all_eq_true]
    intro j hj
    rw [List.mem_map] at hj
    obtain ⟨p, hp, rfl⟩ := hj
    exact validPersonJson_personToJson p (h p hp).1 (h p hp).2
  simp [importData, hgp, hgr, jsTruthy, isArray, asArray, hall]

/-- A concrete store for the round-trip witness. -/
def roundTripState : GraphState := { people := [alice, bob], relationships := [relAB] }

/-- A concrete prior import store for the round-trip witness. -/
def emptyImportState : ImportState := { peopleJson := [], relationshipsJson := [] }

/-- Witness for C5 at a concrete store: Alice and Bob with one
relationship survive an export-import round trip. -/
theorem export_import_roundtrip_witness :
    importData (some (exportData roundTripState)) emptyImportState =
      { peopleJson := roundTripState.people.map personToJson,
        relationshipsJson := roundTripState.relationships.map relationshipToJson } ∧
    decodeList personOfJson (roundTripState.people.map personToJson) =
      some roundTripState.people ∧
    decodeList relationshipOfJson (roundTripState.relationships.map relationshipToJson) =
      some roundTripState.relationships :=
  export_import_roundtrip roundTripState emptyImportState (by
    intro p hp
    simp [roundTripState] at hp
    rcases hp with rfl | rfl
    · exact ⟨by decide, by decide⟩
    · exact ⟨by decide, by decide⟩)

end PolyMap
